import Mathlib

/-! ## Decimal rendering of naturals

Python's f-strings render the loop counter `i` in `f"{base_name}_{i}.{ext}"`
in decimal; the embedding uses Lean's `Nat.repr` for the same purpose.
`Nat.repr` is injective — proved here by exhibiting a left inverse that
folds the decimal digits back into a number.  Injectivity is what makes
the Python uniquification loop terminate on a finite directory, and it is
needed for the exact-collision-set characterisation of the resolver. -/

/-- Numeric value of a decimal digit character. -/
def decDigit (c : Char) : Nat := c.toNat - 48

/-- Fold a list of decimal digit characters onto an accumulator. -/
def decFold (a : Nat) (l : List Char) : Nat :=
  l.foldl (fun b c => 10 * b + decDigit c) a

/-! ## Filename sanitizer

`streamlit_app.py` line 48-49 and `web_app.py` line 25-26 (identical):
```python
def sanitize_filename(name):
    return re.sub(r'[\\/*?:"<>|]', "", name)
```
The regex substitution with the empty replacement deletes every occurrence
of the nine characters of the class and keeps all other characters. -/

/-- The characters deleted by the sanitizer's character class. -/
def forbiddenChars : List Char := ['\\', '/', '*', '?', ':', '"', '<', '>', '|']

/-- `sanitize_filename` from both source files. -/
def sanitize_filename (name : String) : String :=
  ⟨name.data.filter (fun c => decide (c ∉ forbiddenChars))⟩

/-! ## Unique Path Resolver

`streamlit_app.py` lines 85-92:
```python
def get_unique_filename(output_dir, base_name, ext):
    candidate = f"{base_name}.{ext}"
    i = 1
    while (output_dir / candidate).exists():
        candidate = f"{base_name}_{i}.{ext}"
        i += 1
    return candidate
```
`candName base ext k` is the k-th name probed: `base.ext` for k = 0 and
`base_k.ext` for k ≥ 1.  The Python loop returns the first probe that does
not exist.  Since the probed names are pairwise distinct
(`candName_injective`) and the directory is finite, a free name occurs
among the first `files.length + 1` probes; the loop is therefore embedded
as a search over `List.range (files.length + 1)`, whose fallback branch is
dead (`guf_find_isSome`). -/

/-- The k-th candidate name probed by `get_unique_filename`. -/
def candName (base ext : String) (k : Nat) : String :=
  if k = 0 then base ++ "." ++ ext
  else base ++ "_" ++ Nat.repr k ++ "." ++ ext

/-- `get_unique_filename` from `streamlit_app.py` lines 85-92, with the
directory given as the list of its existing file names.  The probe order
is `candName base ext 0, 1, 2, …`; the first `files.length + 1` probes
always contain a free name, so the fallback arm is unreachable. -/
def get_unique_filename (files : List String) (base ext : String) : String :=
  match (List.range (files.length + 1)).find?
      (fun k => decide (candName base ext k ∉ files)) with
  | some k => candName base ext k
  | none => candName base ext (files.length + 1)

/-! ## Command Builder

`streamlit_app.py` lines 113-183, `build_yt_dlp_cmd`.  The in-memory
configuration read by the builder is a structure with the keys the
function uses; by the time any download runs, the sidebar widgets
(lines 302-352) have made `subtitles` a list of strings and `proxy` a
string (empty when unset; Python truthiness of a string is non-emptiness).
The Python substring test `"%(" not in unique_name` and the prefix test
`video_id.startswith("http")` are modelled on the character lists. -/

structure Config where
  quality : String
  thumbnails : String
  metadata : String
  subtitles : List String
  sponsorblock : String
  audio_only : Bool
  max_concurrent : Nat
  output_path : String
  proxy : String
deriving DecidableEq, Repr

/-- Python `pat in s` (substring test). -/
def strContains (s pat : String) : Bool := decide (pat.data <:+: s.data)

/-- Python `s.startswith(pat)`. -/
def strStartsWith (s pat : String) : Bool := decide (pat.data <+: s.data)

/-- Python `s.replace("p", "")` as used on the quality string. -/
def stripP (q : String) : String := ⟨q.data.filter (fun c => decide (c ≠ 'p'))⟩

/-- The height-constrained format selector built at line 146. -/
def heightSelector (q : String) : String :=
  "bestvideo[height=" ++ stripP q ++ "][ext=mp4]+bestaudio[ext=m4a]/best[height=" ++
    stripP q ++ "][ext=mp4]/best[height=" ++ stripP q ++ "]"

/-- Output template selection, lines 114-123.  `title` is `None` or the
video title; an empty-string title is falsy in Python and also takes the
default template. -/
def outTemplate (cfg : Config) (files : List String) (title : Option String) : String :=
  match title with
  | none => "%(title)s.%(ext)s"
  | some t =>
    if t = "" then "%(title)s.%(ext)s"
    else
      let base_name := sanitize_filename t
      let ext := if cfg.audio_only then "mp3" else "%(ext)s"
      let unique_name := get_unique_filename files base_name ext
      if strContains unique_name "%(" then base_name ++ ".%(ext)s" else unique_name

/-- Lines 124-131: the fixed leading arguments.  `str(output_dir / out_template)`
is modelled as the path join with a single separator. -/
def baseArgs (output_dir tmpl : String) : List String :=
  ["yt-dlp", "--no-cache-dir", "-o", output_dir ++ "/" ++ tmpl, "--cookies", "cookies.txt"]

/-- Lines 133-150: audio-only versus video format and thumbnail flags.
A falsy (absent or empty) `format_id` falls through to the quality rules. -/
def formatThumbArgs (cfg : Config) (format_id : Option String) : List String :=
  if cfg.audio_only then
    ["-f", "bestaudio", "--extract-audio", "--audio-format", "mp3"] ++
      (if cfg.thumbnails ≠ "skip" then ["--embed-thumbnail"] else [])
  else
    (match format_id with
     | some f =>
       if f = "" then
         if cfg.quality = "best" then
           ["-f", "bestvideo[ext=mp4]+bestaudio[ext=m4a]/best[ext=mp4]/best"]
         else
           ["-f", if strContains cfg.quality "p" then heightSelector cfg.quality else cfg.quality]
       else ["-f", f]
     | none =>
       if cfg.quality = "best" then
         ["-f", "bestvideo[ext=mp4]+bestaudio[ext=m4a]/best[ext=mp4]/best"]
       else
         ["-f", if strContains cfg.quality "p" then heightSelector cfg.quality else cfg.quality]) ++
      (if cfg.thumbnails = "embed" then ["--embed-thumbnail"]
       else if cfg.thumbnails = "write" then ["--write-thumbnail"] else [])

/-- Lines 152-155. -/
def metadataArgs (cfg : Config) : List String :=
  if cfg.metadata = "embed" then ["--embed-metadata"]
  else if cfg.metadata = "write" then ["--write-info-json"] else []

/-- Lines 157-167: subtitle flags, added only when the selection list is
non-empty (Python truthiness) and does not contain `"none"`. -/
def subtitleArgs (cfg : Config) : List String :=
  if cfg.subtitles ≠ [] ∧ "none" ∉ cfg.subtitles then
    ["--write-subs", "--sub-lang", String.intercalate "," cfg.subtitles,
     "--sub-format", "best", "--embed-subs"]
  else []

/-- Lines 169-172. -/
def sponsorblockArgs (cfg : Config) : List String :=
  if cfg.sponsorblock = "mark" then ["--sponsorblock-mark", "all"]
  else if cfg.sponsorblock = "remove" then ["--sponsorblock-remove", "all"] else []

/-- Lines 174-176: `config.get("proxy")` is truthy only for a non-empty string. -/
def proxyArgs (cfg : Config) : List String :=
  if cfg.proxy ≠ "" then ["--proxy", cfg.proxy] else []

/-- Lines 178-182. -/
def targetArgs (video_id : String) : List String :=
  if strStartsWith video_id "http" then [video_id]
  else ["https://www.youtube.com/watch?v=" ++ video_id]

/-- `build_yt_dlp_cmd`, lines 113-183: the chunks in source order. -/
def build_yt_dlp_cmd (cfg : Config) (files : List String) (video_id output_dir : String)
    (title format_id : Option String) : List String :=
  baseArgs output_dir (outTemplate cfg files title) ++ formatThumbArgs cfg format_id ++
    metadataArgs cfg ++ subtitleArgs cfg ++ sponsorblockArgs cfg ++ proxyArgs cfg ++
    targetArgs video_id

/-! ## Job Runner — `streamlit_app.py` lines 186-240

```python
def download_video(video, output_path, format_id=None, max_retries=2, progress_callback=None):
    video_id = video["id"]; title = video["title"]
    attempt = 0
    while attempt < max_retries:
        try:
            cmd = build_yt_dlp_cmd(...)
            process = subprocess.Popen(cmd, ...)
            ... stream output, maybe call progress_callback ...
            process.wait()
            if process.returncode == 0:
                return {"title": title, "status": "Downloaded", ...}
            else:
                attempt += 1
                if attempt >= max_retries:
                    return {..., "status": f"Failed after {max_retries} attempts.", ...}
        except Exception as e:
            attempt += 1
            if attempt >= max_retries:
                return {..., "status": f"Failed: {str(e)[:100]}", ...}
```
Each loop iteration performs one subprocess attempt; its observable
outcome (exit code after the output is drained, or an exception raised
while building the command, spawning, or streaming) is `outs attempt`.
The model returns the plain-Python result — `none` when the loop falls
through without returning — paired with the number of attempts performed.
The progress-callback side channel (lines 204-215, 218-219) writes only
to the UI and is not part of the returned value, so it is elided. -/

inductive AttemptOutcome where
  | exitCode (code : Int)
  | exc (msg : String)
deriving DecidableEq, Repr

structure DownloadResult where
  title : String
  status : String
  timestamp : String
deriving DecidableEq, Repr

/-- An attempt that does not lead to `return` with status `Downloaded`:
a non-zero exit status or an exception during spawn/IO. -/
def attemptFails : AttemptOutcome → Prop
  | AttemptOutcome.exitCode c => c ≠ 0
  | AttemptOutcome.exc _ => True

/-- The `while attempt < max_retries` loop of `download_video`, entered at
counter value `attempt`.  Returns the Python return value (`none` models
falling off the end of the function) and the number of subprocess
attempts performed. -/
def dvGo (title now : String) (outs : Nat → AttemptOutcome) (max_retries : Int)
    (attempt : Nat) : Option DownloadResult × Nat :=
  if h : (attempt : Int) < max_retries then
    match outs attempt with
    | AttemptOutcome.exitCode c =>
      if c = 0 then
        (some { title := title, status := "Downloaded", timestamp := now }, 1)
      else if max_retries ≤ (attempt : Int) + 1 then
        (some { title := title,
                status := "Failed after " ++ toString max_retries ++ " attempts.",
                timestamp := now }, 1)
      else
        let r := dvGo title now outs max_retries (attempt + 1)
        (r.1, r.2 + 1)
    | AttemptOutcome.exc msg =>
      if max_retries ≤ (attempt : Int) + 1 then
        (some { title := title, status := "Failed: " ++ String.take msg 100,
                timestamp := now }, 1)
      else
        let r := dvGo title now outs max_retries (attempt + 1)
        (r.1, r.2 + 1)
  else (none, 0)
termination_by (max_retries - attempt).toNat
decreasing_by
  all_goals omega

/-- `download_video` from `streamlit_app.py` (the loop started at 0). -/
def download_video (title now : String) (outs : Nat → AttemptOutcome)
    (max_retries : Int) : Option DownloadResult × Nat :=
  dvGo title now outs max_retries 0

/-! ## Job Runner — `web_app.py` lines 47-80

```python
def download_video(video_id, output_dir, config, retries=3):
    for attempt in range(1, retries + 1):
        try:
            cmd = [...]
            subprocess.run(cmd, check=True)
            return True
        except subprocess.CalledProcessError as e:
            st.warning(f"Attempt {attempt} failed: {e.stderr.strip()[:200]}")
            if attempt == retries:
                st.error(f"All {retries} attempts failed.")
                return False
    return False
```
Only `CalledProcessError` is caught; any other exception (e.g. a spawn
failure) propagates.  `subprocess.run` is invoked without capturing
output, so the `stderr` attribute of a raised `CalledProcessError` is
`None`; the handler's `e.stderr.strip()` then raises `AttributeError`
inside the `except` block, which also propagates.  The model keeps the
general `stderr : Option String` field of the exception object and places
the crash exactly where the dereference happens. -/

inductive WebAttempt where
  | exitZero
  | callederr (stderr : Option String)
  | spawnExc (msg : String)
deriving DecidableEq, Repr

/-- The `for attempt in range(1, retries + 1)` loop body, over the list of
remaining attempt numbers; paired with the number of subprocess attempts
performed. -/
def webLoop (outs : Nat → WebAttempt) (retries : Nat) : List Nat → Except String Bool × Nat
  | [] => (Except.ok false, 0)
  | attempt :: rest =>
    match outs attempt with
    | WebAttempt.exitZero => (Except.ok true, 1)
    | WebAttempt.callederr stderr =>
      match stderr with
      | none => (Except.error "AttributeError: NoneType object has no attribute strip", 1)
      | some _ =>
        if attempt = retries then (Except.ok false, 1)
        else
          let r := webLoop outs retries rest
          (r.1, r.2 + 1)
    | WebAttempt.spawnExc msg => (Except.error msg, 1)

/-- `download_video` from `web_app.py`. -/
def web_download_video (outs : Nat → WebAttempt) (retries : Nat) : Except String Bool × Nat :=
  webLoop outs retries (List.range' 1 retries)

/-! ## Batch loops — `streamlit_app.py` lines 438-467 and 510-541

Both download handlers run the same sequential loop:
```python
    results = []
    for vid in selected_videos:
        result = download_video(vid, output_dir, progress_callback=update_progress)
        st.write(f"{result['title']}: {result['status']}")
        results.append(result)
    log_history(results)
```
(the single-video handler first maps each URL to a `VideoDescriptor` via
`fetch_video_title`).  `download_video` is called with its default
`max_retries=2`.  Were it ever to return `None`, the subscript
`result['title']` would raise `TypeError`; the model propagates that as an
error.  The attempt outcomes of the video at position `i` are `outs i`. -/

structure Video where
  id : String
  title : String
deriving DecidableEq, Repr

def run_batch (now : String) (outs : Nat → Nat → AttemptOutcome) :
    Nat → List Video → Except String (List DownloadResult)
  | _, [] => Except.ok []
  | i, v :: vs =>
    match (download_video v.title now (outs i) 2).1 with
    | none => Except.error "TypeError: NoneType object is not subscriptable"
    | some r => (run_batch now outs (i + 1) vs).map (fun rs => r :: rs)

/-- The single-video handler (lines 510-541): each URL is turned into a
descriptor whose title comes from `fetch_video_title` (an external lookup,
supplied as a function), then the same loop runs. -/
def run_single_batch (now : String) (outs : Nat → Nat → AttemptOutcome)
    (fetchTitle : String → String) (urls : List String) :
    Except String (List DownloadResult) :=
  run_batch now outs 0 (urls.map (fun u => { id := u, title := fetchTitle u }))

/-! ## Playlist Resolver

`streamlit_app.py` lines 52-82 and `web_app.py` lines 30-45.  The
subprocess + `json.loads` pipeline is represented by a `ToolResult`: the
tool exits zero and its stdout parses (`success (some raw)`), exits zero
with unparseable stdout (`success none`, where `json.loads` raises
`JSONDecodeError`), exits non-zero (`check=True` raises
`CalledProcessError`), or fails to spawn.  A parsed document is a
`RawPlaylist`; `Option` fields model keys that may be missing
(`data.get("title", …)`, `data.get("entries", [])`, `entry.get("title", …)`,
and the mandatory `entry["id"]`, whose absence raises `KeyError`).

The streamlit resolver wraps everything in `except Exception` (line 80):
every failure becomes a reported error and `None`.  The web resolver
catches only `subprocess.CalledProcessError` (line 43): `JSONDecodeError`
and `KeyError` propagate. -/

structure RawEntry where
  id : Option String
  title : Option String
deriving DecidableEq, Repr

structure RawPlaylist where
  title : Option String
  entries : Option (List RawEntry)
deriving DecidableEq, Repr

structure Playlist where
  title : String
  videos : List Video
deriving DecidableEq, Repr

inductive ToolResult where
  | success (parsed : Option RawPlaylist)
  | exitNonzero (code : Int) (stderr : String)
  | spawnExc (msg : String)
deriving DecidableEq, Repr

/-- The list comprehension over `data.get("entries", [])` with
`enumerate`; `entry["id"]` raises `KeyError` (here: `none`) when absent,
aborting the whole comprehension. -/
def playlistVideos : List RawEntry → Nat → Option (List Video)
  | [], _ => some []
  | e :: rest, i =>
    match e.id with
    | none => none
    | some vid =>
      (playlistVideos rest (i + 1)).map
        (fun vs =>
          { id := vid,
            title := sanitize_filename (e.title.getD ("Video " ++ Nat.repr (i + 1))) } :: vs)

/-- `get_playlist_info` from `streamlit_app.py`: any exception is caught
(`except Exception`), reported via `st.error`, and `None` is returned. -/
def get_playlist_info (res : ToolResult) : Option Playlist :=
  match res with
  | ToolResult.exitNonzero _ _ => none
  | ToolResult.spawnExc _ => none
  | ToolResult.success none => none
  | ToolResult.success (some raw) =>
    match playlistVideos (raw.entries.getD []) 0 with
    | none => none
    | some vids =>
      some { title := sanitize_filename (raw.title.getD "Untitled Playlist"), videos := vids }

/-- `get_playlist_info` from `web_app.py`: only `CalledProcessError` is
caught (error reported, `None` returned); malformed JSON and a missing
`id` raise uncaught exceptions. -/
def web_get_playlist_info (res : ToolResult) : Except String (Option Playlist) :=
  match res with
  | ToolResult.exitNonzero _ _ => Except.ok none
  | ToolResult.spawnExc msg => Except.error msg
  | ToolResult.success none => Except.error "json.decoder.JSONDecodeError"
  | ToolResult.success (some raw) =>
    match playlistVideos (raw.entries.getD []) 0 with
    | none => Except.error "KeyError: id"
    | some vids =>
      Except.ok (some { title := sanitize_filename (raw.title.getD "Untitled Playlist"),
                        videos := vids })

/-- The `for url in urls` loop of `streamlit_app.py` lines 398-405: a URL
whose resolution returns `None` is simply skipped and the loop continues. -/
def streamlit_process_playlists : List (String × ToolResult) → List (String × Playlist)
  | [] => []
  | (url, res) :: rest =>
    match get_playlist_info res with
    | some info => (url, info) :: streamlit_process_playlists rest
    | none => streamlit_process_playlists rest

/-- The `for url in urls` loop of `web_app.py` lines 117-121: an uncaught
exception aborts the loop (and nothing is persisted afterwards). -/
def web_process_playlists : List (String × ToolResult) → Except String (List (String × Playlist))
  | [] => Except.ok []
  | (url, res) :: rest =>
    match web_get_playlist_info res with
    | Except.error msg => Except.error msg
    | Except.ok none => web_process_playlists rest
    | Except.ok (some info) => (web_process_playlists rest).map (fun m => (url, info) :: m)

/-! ## Persisted JSON documents — config, history, playlist cache

`streamlit_app.py` lines 31-37 (`load_config`), 40-42 (`save_config`),
243-250 (`log_history`), 411-413 (playlist cache read):
```python
def load_config():
    config = DEFAULT_CONFIG.copy()
    if os.path.exists(CONFIG_FILE):
        with open(CONFIG_FILE, "r") as f:
            user_cfg = json.load(f)
            config.update(user_cfg)
    return config

def log_history(entries):
    history = []
    if os.path.exists(HISTORY_FILE):
        with open(HISTORY_FILE, "r") as f:
            history = json.load(f)
    history.extend(entries)
    with open(HISTORY_FILE, "w") as f:
        json.dump(history, f, indent=2)
```
None of the `json.load` calls is guarded by a try/except: on an existing
but unparseable file, `json.load` raises `json.decoder.JSONDecodeError`,
which propagates.  A JSON object is modelled as an association list of
keys to `JVal` values; `dict.update` keeps the base order, overrides
values of existing keys, and appends new keys in order. -/

inductive FileState (α : Type) where
  | absent
  | corrupt
  | parsed (v : α)
deriving DecidableEq, Repr

inductive JVal where
  | str (s : String)
  | bool (b : Bool)
  | num (n : Int)
  | list (l : List String)
deriving DecidableEq, Repr

/-- `DEFAULT_CONFIG`, lines 19-28; `output_path` is `str(Path.cwd())`,
supplied as the parameter `cwd`. -/
def DEFAULT_CONFIG (cwd : String) : List (String × JVal) :=
  [("quality", JVal.str "best"),
   ("thumbnails", JVal.str "embed"),
   ("metadata", JVal.str "embed"),
   ("subtitles", JVal.str "all"),
   ("sponsorblock", JVal.str "mark"),
   ("audio_only", JVal.bool false),
   ("max_concurrent", JVal.num 2),
   ("output_path", JVal.str cwd)]

/-- Python `base.update(upd)` on dictionaries (insertion-ordered). -/
def dictUpdate (base upd : List (String × JVal)) : List (String × JVal) :=
  base.map (fun kv =>
    match upd.lookup kv.1 with
    | some v => (kv.1, v)
    | none => kv) ++
  upd.filter (fun kv => (base.lookup kv.1).isNone)

/-- `load_config` (lines 31-37): defaults when the file is absent, merge
when it parses, an uncaught `JSONDecodeError` when it is corrupt. -/
def load_config (cwd : String) (file : FileState (List (String × JVal))) :
    Except String (List (String × JVal)) :=
  match file with
  | FileState.absent => Except.ok (DEFAULT_CONFIG cwd)
  | FileState.corrupt => Except.error "json.decoder.JSONDecodeError"
  | FileState.parsed user => Except.ok (dictUpdate (DEFAULT_CONFIG cwd) user)

/-- `log_history` (lines 243-250): the value is the document written back.
An absent file is treated as empty history; a corrupt one raises before
anything is written. -/
def log_history (file : FileState (List DownloadResult))
    (entries : List DownloadResult) : Except String (List DownloadResult) :=
  match file with
  | FileState.absent => Except.ok entries
  | FileState.corrupt => Except.error "json.decoder.JSONDecodeError"
  | FileState.parsed history => Except.ok (history ++ entries)

/-- The playlist cache read at lines 411-413 (`json.load` on
`playlist_data.json`, also unguarded); absent means the episode-selector
section is skipped, rendered here as the empty mapping. -/
def read_playlist_cache (file : FileState (List (String × Playlist))) :
    Except String (List (String × Playlist)) :=
  match file with
  | FileState.absent => Except.ok []
  | FileState.corrupt => Except.error "json.decoder.JSONDecodeError"
  | FileState.parsed m => Except.ok m

/-! ## Persisted-store effects of one script run (frame condition, C7)

A Streamlit script re-runs top to bottom on every interaction.  `Stores`
is the persisted state the scripts can write: `config.json`,
`playlist_data.json`, `download_history.json`.

`streamlit_render` models the write effects of one run of
`streamlit_app.py`, driven by which buttons were pressed:
  * lines 293-295 (temp cleanup), 302-352 (sidebar widgets mutating the
    in-memory config), 355-365 (pip upgrade), 374-386 (history display)
    touch no persisted store;
  * line 367-369: the Save Settings button alone calls `save_config`;
  * lines 395-408: Process Playlists writes `playlist_data.json` only if
    at least one URL resolved;
  * lines 427-467 / 499-541: a download click runs the batch loop and then
    `log_history`; a crash inside the loop or inside `log_history`'s read
    leaves the files as they were (the read precedes the write).

`web_render` models one run of `web_app.py`'s sidebar (lines 85-104),
which ends with `config.update({...}); save_config(config)` executed
unconditionally — the config store is written on every run, with no
explicit save control. -/

structure Stores where
  configFile : FileState (List (String × JVal))
  playlistFile : FileState (List (String × Playlist))
  historyFile : FileState (List DownloadResult)
deriving DecidableEq, Repr

structure UIActions where
  cleanTemp : Bool
  updateYtDlp : Bool
  saveSettings : Bool
  processPlaylists : Bool
  downloadClicked : Bool
deriving DecidableEq, Repr

def streamlit_render (ui : UIActions) (uiConfig : List (String × JVal))
    (playlistInputs : List (String × ToolResult)) (now : String)
    (outs : Nat → Nat → AttemptOutcome) (videos : List Video) (s : Stores) : Stores :=
  let s1 := if ui.saveSettings then { s with configFile := FileState.parsed uiConfig } else s
  let s2 :=
    if ui.processPlaylists then
      if streamlit_process_playlists playlistInputs ≠ [] then
        { s1 with playlistFile := FileState.parsed (streamlit_process_playlists playlistInputs) }
      else s1
    else s1
  if ui.downloadClicked then
    match run_batch now outs 0 videos with
    | Except.ok results =>
      match log_history s2.historyFile results with
      | Except.ok newDoc => { s2 with historyFile := FileState.parsed newDoc }
      | Except.error _ => s2
    | Except.error _ => s2
  else s2

structure WebWidgets where
  download_path : String
  mode : String
  quality : String
  thumbnail : Bool
  metadata : Bool
  sponsorblock : Bool
  subtitles : List String
deriving DecidableEq, Repr

/-- The dictionary passed to `config.update` at `web_app.py` lines 95-103. -/
def webWidgetPairs (w : WebWidgets) : List (String × JVal) :=
  [("download_path", JVal.str w.download_path),
   ("mode", JVal.str w.mode),
   ("quality", JVal.str w.quality),
   ("thumbnail", JVal.bool w.thumbnail),
   ("metadata", JVal.bool w.metadata),
   ("sponsorblock", JVal.bool w.sponsorblock),
   ("subtitles", JVal.list w.subtitles)]

/-- One run of `web_app.py`'s sidebar: `loadedCfg` is the in-memory config
dict at that point (from `load_config()`), and `save_config` runs
unconditionally at line 104. -/
def web_render (loadedCfg : List (String × JVal)) (w : WebWidgets) (s : Stores) : Stores :=
  { s with configFile := FileState.parsed (dictUpdate loadedCfg (webWidgetPairs w)) }

/-! ## Command building in `web_app.py` (lines 50-71)

The argument list is built inline in `web_app.py`'s `download_video`; the
configuration there is the raw dict, read with `config.get(...)`, so every
key may be absent.  Python truthiness: an absent key or empty string or
empty list is falsy.  Note the subtitle guard tests only non-emptiness —
there is no `"none"` check in this variant. -/

structure WebConfig where
  quality : Option String
  thumbnail : Bool
  metadata : Bool
  subtitles : Option (List String)
  sponsorblock : Bool
deriving DecidableEq, Repr

/-- Lines 67-68: `if config.get("subtitles") and len(config["subtitles"]) > 0`. -/
def webSubtitleArgs (cfg : WebConfig) : List String :=
  match cfg.subtitles with
  | none => []
  | some l =>
    if l ≠ [] ∧ 0 < l.length then
      ["--write-subs", "--embed-subs", "--sub-lang", String.intercalate "," l,
       "--sub-format", "best"]
    else []

/-- Lines 50-71: the full argument list (the watch URL sits before
`--cookies` in this variant). -/
def web_build_cmd (cfg : WebConfig) (video_id output_dir : String) : List String :=
  ["yt-dlp", "--no-cache-dir", "-o", output_dir ++ "/" ++ "%(title)s.%(ext)s",
   "https://www.youtube.com/watch?v=" ++ video_id, "--cookies", "cookies.txt"] ++
    (match cfg.quality with
     | none => []
     | some q => if q ≠ "" then ["-f", q] else []) ++
    (if cfg.thumbnail then ["--write-thumbnail", "--embed-thumbnail"] else []) ++
    (if cfg.metadata then ["--write-info-json"] else []) ++
    webSubtitleArgs cfg ++
    (if cfg.sponsorblock then ["--sponsorblock-mark", "all"] else [])

/-! ## Claim C3 — duplicate titles and the output template -/

/-- The video-mode configuration of the duplicate-title scenario
(quality "best", thumbnails embedded, metadata embedded, no subtitles,
SponsorBlock off, no proxy). -/
def introVideoConfig : Config :=
  { quality := "best", thumbnails := "embed", metadata := "embed", subtitles := [],
    sponsorblock := "skip", audio_only := false, max_concurrent := 2,
    output_path := "/o", proxy := "" }

/-- The same configuration in audio-only mode. -/
def introAudioConfig : Config :=
  { introVideoConfig with audio_only := true }

/-! ## Lemmas, claim theorems, counterexamples and witnesses -/

/-!
Verification of the yt-dlp Streamlit wrapper repository.

This file gives a shallow embedding of the orchestration logic of the two
source files, `streamlit_app.py` (the main application) and `web_app.py`
(the older, lower-fidelity variant), and proves or refutes the frozen
claims about the repository's specification.

Modelling conventions:
  * A directory is represented by the list of names of the files it
    contains (`List String`); the Python `(output_dir / name).exists()`
    probe becomes list membership.
  * Subprocess invocations are represented by their observable outcome
    (exit code, or an exception raised during spawn/IO), supplied as an
    input stream indexed by attempt number.
  * A JSON document on disk is represented by a `FileState`: absent,
    present-but-unparseable, or parsed to a value.  `json.load` on a
    corrupt file raises `json.decoder.JSONDecodeError`; an uncaught
    Python exception is modelled by `Except.error`.
  * Python `datetime.now().isoformat()` is an input parameter `now`.
-/

lemma decDigit_digitChar : ∀ m : Nat, m < 10 → decDigit (Nat.digitChar m) = m := by
  decide

lemma decFold_cons (x : Nat) (c : Char) (l : List Char) :
    decFold x (c :: l) = decFold (10 * x + decDigit c) l := rfl

lemma toDigitsCore_succ (fuel n : Nat) (ds : List Char) :
    Nat.toDigitsCore 10 (fuel + 1) n ds =
      if n / 10 = 0 then Nat.digitChar (n % 10) :: ds
      else Nat.toDigitsCore 10 fuel (n / 10) (Nat.digitChar (n % 10) :: ds) := rfl

lemma decFold_toDigitsCore :
    ∀ (fuel n : Nat), n < fuel → ∀ (ds : List Char) (a : Nat),
      ∃ k : Nat, decFold a (Nat.toDigitsCore 10 fuel n ds) = decFold (a * 10 ^ k + n) ds := by
  intro fuel
  induction fuel with
  | zero => intro n h; omega
  | succ fuel ih =>
    intro n h ds a
    rw [toDigitsCore_succ]
    by_cases h10 : n / 10 = 0
    · have hn : n < 10 := (Nat.div_eq_zero_iff (by norm_num)).1 h10
      refine ⟨1, ?_⟩
      rw [if_pos h10, decFold_cons, decDigit_digitChar (n % 10) (by omega),
        Nat.mod_eq_of_lt hn]
      congr 1
      ring
    · have hge : 10 ≤ n := by
        rcases Nat.lt_or_ge n 10 with hlt | hge
        · exact absurd (Nat.div_eq_of_lt hlt) h10
        · exact hge
      obtain ⟨k, hk⟩ := ih (n / 10)
        (by
          have hlt : n / 10 < n := Nat.div_lt_self (by omega) (by norm_num)
          omega)
        (Nat.digitChar (n % 10) :: ds) a
      refine ⟨k + 1, ?_⟩
      rw [if_neg h10, hk, decFold_cons, decDigit_digitChar (n % 10) (by omega)]
      have hdm : 10 * (n / 10) + n % 10 = n := by omega
      congr 1
      calc 10 * (a * 10 ^ k + n / 10) + n % 10
          = a * (10 ^ k * 10) + (10 * (n / 10) + n % 10) := by ring
        _ = a * 10 ^ (k + 1) + n := by rw [hdm, pow_succ]

lemma decFold_repr (n : Nat) : decFold 0 (Nat.repr n).data = n := by
  have : (Nat.repr n).data = Nat.toDigits 10 n := rfl
  rw [this]
  unfold Nat.toDigits
  obtain ⟨k, hk⟩ := decFold_toDigitsCore (n + 1) n (by omega) [] 0
  rw [hk]
  simp [decFold]

lemma natRepr_injective : Function.Injective Nat.repr := by
  intro m n h
  have : decFold 0 (Nat.repr m).data = decFold 0 (Nat.repr n).data := by rw [h]
  rwa [decFold_repr, decFold_repr] at this

lemma data_dot : (".").data = ['.'] := rfl

lemma data_und : ("_").data = ['_'] := rfl

lemma candName_data (base ext : String) (k : Nat) :
    (candName base ext k).data =
      if k = 0 then base.data ++ ('.' :: ext.data)
      else base.data ++ ('_' :: ((Nat.repr k).data ++ ('.' :: ext.data))) := by
  unfold candName
  by_cases hk : k = 0
  · rw [if_pos hk, if_pos hk]
    simp [String.data_append, data_dot]
  · rw [if_neg hk, if_neg hk]
    simp [String.data_append, data_dot, data_und]

lemma candName_injective (base ext : String) : Function.Injective (candName base ext) := by
  intro i j h
  have hdata := congrArg String.data h
  rw [candName_data, candName_data] at hdata
  by_cases hi : i = 0 <;> by_cases hj : j = 0
  · omega
  · exfalso
    rw [if_pos hi, if_neg hj] at hdata
    have h2 := List.append_cancel_left hdata
    simp at h2
  · exfalso
    rw [if_neg hi, if_pos hj] at hdata
    have h2 := List.append_cancel_left hdata
    simp at h2
  · rw [if_neg hi, if_neg hj] at hdata
    have h2 := List.append_cancel_left hdata
    have h3 : (Nat.repr i).data ++ ('.' :: ext.data) = (Nat.repr j).data ++ ('.' :: ext.data) :=
      by simpa using h2
    have h4 := List.append_cancel_right h3
    exact natRepr_injective (String.ext h4)

lemma guf_find_isSome (files : List String) (base ext : String) :
    ((List.range (files.length + 1)).find?
      (fun k => decide (candName base ext k ∉ files))).isSome := by
  rw [Option.isSome_iff_ne_none]
  intro hnone
  rw [List.find?_eq_none] at hnone
  have hmem : ∀ k ∈ List.range (files.length + 1), candName base ext k ∈ files := by
    intro k hk
    have := hnone k hk
    simpa using this
  have hsub : (List.range (files.length + 1)).map (candName base ext) ⊆ files := by
    intro x hx
    rw [List.mem_map] at hx
    obtain ⟨k, hk, rfl⟩ := hx
    exact hmem k hk
  have hnodup : ((List.range (files.length + 1)).map (candName base ext)).Nodup :=
    (List.nodup_range _).map (candName_injective base ext)
  have hle := (hnodup.subperm hsub).length_le
  simp at hle

lemma guf_of_base_free (files : List String) (base ext : String)
    (h : candName base ext 0 ∉ files) :
    get_unique_filename files base ext = candName base ext 0 := by
  unfold get_unique_filename
  rw [List.range_succ_eq_map]
  rw [List.find?_cons_of_pos _ (by simpa using h)]

lemma guf_of_exact_range (files : List String) (base ext : String) (N : Nat)
    (h : files = (List.range N).map (candName base ext)) :
    get_unique_filename files base ext = candName base ext N := by
  have hlen : files.length = N := by rw [h]; simp
  have hnotmem : candName base ext N ∉ files := by
    rw [h]
    intro hmem
    rw [List.mem_map] at hmem
    obtain ⟨j, hj, hje⟩ := hmem
    rw [List.mem_range] at hj
    have := candName_injective base ext hje
    omega
  have hmem : ∀ k, k < N → candName base ext k ∈ files := by
    intro k hk
    rw [h, List.mem_map]
    exact ⟨k, List.mem_range.2 hk, rfl⟩
  unfold get_unique_filename
  rw [hlen, List.range_succ, List.find?_append]
  have h1 : (List.range N).find? (fun k => decide (candName base ext k ∉ files)) = none := by
    rw [List.find?_eq_none]
    intro k hk
    simp only [decide_eq_true_eq, Decidable.not_not]
    exact hmem k (List.mem_range.1 hk)
  have h2 : ([N] : List Nat).find? (fun k => decide (candName base ext k ∉ files)) = some N := by
    apply List.find?_cons_of_pos
    simpa using hnotmem
  rw [h1, h2]
  rfl

/-- Every value the resolver returns is one of the probed candidate names;
in particular it always ends in `"." ++ ext`. -/
lemma guf_is_candName (files : List String) (base ext : String) :
    ∃ k, get_unique_filename files base ext = candName base ext k := by
  unfold get_unique_filename
  cases hf : (List.range (files.length + 1)).find?
      (fun k => decide (candName base ext k ∉ files)) with
  | none => exact ⟨files.length + 1, rfl⟩
  | some k => exact ⟨k, rfl⟩

lemma candName_ends_with_ext (base ext : String) (k : Nat) :
    ∃ p : String, candName base ext k = p ++ "." ++ ext := by
  unfold candName
  by_cases hk : k = 0
  · exact ⟨base, by rw [if_pos hk]⟩
  · exact ⟨base ++ "_" ++ Nat.repr k, by rw [if_neg hk]⟩

/-! ## Sanitizer properties (claim C9) -/

/-- C9.  Filename Sanitizer: for every string `s`, `sanitize_filename s`
contains no occurrence of any of the characters `\ / * ? : " < > |`, every
other character of `s` is preserved unchanged and in order (the result is
a sublist of `s` keeping exactly the non-forbidden characters, so its
length is at most that of `s`), the function is total (it is a Lean
function), and it is idempotent. -/
theorem sanitize_filename_spec (s : String) :
    (∀ c ∈ (sanitize_filename s).data, c ∉ forbiddenChars) ∧
    (sanitize_filename s).data.Sublist s.data ∧
    (∀ c : Char, c ∉ forbiddenChars →
      (sanitize_filename s).data.count c = s.data.count c) ∧
    (sanitize_filename s).length ≤ s.length ∧
    sanitize_filename (sanitize_filename s) = sanitize_filename s := by
  refine ⟨?_, ?_, ?_, ?_, ?_⟩
  · intro c hc
    rw [show (sanitize_filename s).data = s.data.filter (fun c => decide (c ∉ forbiddenChars))
      from rfl, List.mem_filter] at hc
    simpa using hc.2
  · exact List.filter_sublist s.data
  · intro c hc
    exact List.count_filter (by simpa using hc)
  · exact List.length_filter_le _ s.data
  · apply String.ext
    show (s.data.filter _).filter _ = s.data.filter _
    rw [List.filter_filter]
    simp

/-- Concrete instantiation of `sanitize_filename_spec`. -/
theorem sanitize_filename_spec_witness :
    'a' ∉ forbiddenChars ∧
      (sanitize_filename "a:b").data.count 'a' = ("a:b" : String).data.count 'a' :=
  ⟨by decide, (sanitize_filename_spec "a:b").2.2.1 'a' (by decide)⟩

lemma dvGo_exit (title now : String) (outs : Nat → AttemptOutcome) (max_retries : Int)
    (attempt : Nat) (c : Int) (h : (attempt : Int) < max_retries)
    (hc : outs attempt = AttemptOutcome.exitCode c) :
    dvGo title now outs max_retries attempt =
      if c = 0 then
        (some { title := title, status := "Downloaded", timestamp := now }, 1)
      else if max_retries ≤ (attempt : Int) + 1 then
        (some { title := title,
                status := "Failed after " ++ toString max_retries ++ " attempts.",
                timestamp := now }, 1)
      else ((dvGo title now outs max_retries (attempt + 1)).1,
            (dvGo title now outs max_retries (attempt + 1)).2 + 1) := by
  rw [dvGo, dif_pos h, hc]

lemma dvGo_exc (title now : String) (outs : Nat → AttemptOutcome) (max_retries : Int)
    (attempt : Nat) (msg : String) (h : (attempt : Int) < max_retries)
    (hm : outs attempt = AttemptOutcome.exc msg) :
    dvGo title now outs max_retries attempt =
      if max_retries ≤ (attempt : Int) + 1 then
        (some { title := title, status := "Failed: " ++ String.take msg 100,
                timestamp := now }, 1)
      else ((dvGo title now outs max_retries (attempt + 1)).1,
            (dvGo title now outs max_retries (attempt + 1)).2 + 1) := by
  rw [dvGo, dif_pos h, hm]

lemma dvGo_stop (title now : String) (outs : Nat → AttemptOutcome) (max_retries : Int)
    (attempt : Nat) (h : ¬ (attempt : Int) < max_retries) :
    dvGo title now outs max_retries attempt = (none, 0) := by
  rw [dvGo, dif_neg h]

lemma dvGo_isSome (title now : String) (outs : Nat → AttemptOutcome) (max_retries : Int) :
    ∀ (fuel attempt : Nat), (max_retries - attempt).toNat ≤ fuel →
      (attempt : Int) < max_retries →
      ((dvGo title now outs max_retries attempt).1).isSome := by
  intro fuel
  induction fuel with
  | zero => intro attempt hle h; omega
  | succ fuel ih =>
    intro attempt hle h
    cases houts : outs attempt with
    | exitCode c =>
      rw [dvGo_exit title now outs max_retries attempt c h houts]
      by_cases hc : c = 0
      · rw [if_pos hc]; rfl
      · rw [if_neg hc]
        by_cases hlast : max_retries ≤ (attempt : Int) + 1
        · rw [if_pos hlast]; rfl
        · rw [if_neg hlast]
          exact ih (attempt + 1) (by omega) (by omega)
    | exc msg =>
      rw [dvGo_exc title now outs max_retries attempt msg h houts]
      by_cases hlast : max_retries ≤ (attempt : Int) + 1
      · rw [if_pos hlast]; rfl
      · rw [if_neg hlast]
        exact ih (attempt + 1) (by omega) (by omega)

lemma string_append_assoc (a b c : String) : a ++ b ++ c = a ++ (b ++ c) := by
  apply String.ext
  simp [String.data_append]

lemma dvGo_all_fail (title now : String) (outs : Nat → AttemptOutcome) (max_retries : Int) :
    ∀ (fuel attempt : Nat), (max_retries - attempt).toNat ≤ fuel →
      (attempt : Int) < max_retries →
      (∀ i : Nat, attempt ≤ i → (i : Int) < max_retries → attemptFails (outs i)) →
      ∃ r : DownloadResult,
        dvGo title now outs max_retries attempt = (some r, (max_retries - attempt).toNat) ∧
        ∃ t : String, r.status = "Failed" ++ t := by
  intro fuel
  induction fuel with
  | zero => intro attempt hle h _; omega
  | succ fuel ih =>
    intro attempt hle h hfail
    cases houts : outs attempt with
    | exitCode c =>
      have hc : c ≠ 0 := by
        have hf := hfail attempt le_rfl h
        rw [houts] at hf
        exact hf
      rw [dvGo_exit title now outs max_retries attempt c h houts, if_neg hc]
      by_cases hlast : max_retries ≤ (attempt : Int) + 1
      · rw [if_pos hlast]
        refine ⟨{ title := title,
                  status := "Failed after " ++ toString max_retries ++ " attempts.",
                  timestamp := now }, ?_,
                " after " ++ toString max_retries ++ " attempts.", ?_⟩
        · have h1 : (max_retries - (attempt : Int)).toNat = 1 := by omega
          rw [h1]
        · show "Failed after " ++ toString max_retries ++ " attempts." = _
          apply String.ext
          simp [String.data_append, List.append_assoc]
      · rw [if_neg hlast]
        obtain ⟨r, hr, t, ht⟩ := ih (attempt + 1) (by omega) (by omega)
          (fun i hi hlt => hfail i (by omega) hlt)
        refine ⟨r, ?_, t, ht⟩
        rw [hr]
        have h2 : (max_retries - ((attempt : Nat) + 1 : Nat)).toNat + 1 =
            (max_retries - (attempt : Int)).toNat := by
          push_cast
          omega
        rw [Prod.mk.injEq]
        exact ⟨rfl, h2⟩
    | exc msg =>
      rw [dvGo_exc title now outs max_retries attempt msg h houts]
      by_cases hlast : max_retries ≤ (attempt : Int) + 1
      · rw [if_pos hlast]
        refine ⟨{ title := title, status := "Failed: " ++ String.take msg 100,
                  timestamp := now }, ?_, ": " ++ String.take msg 100, ?_⟩
        · have h1 : (max_retries - (attempt : Int)).toNat = 1 := by omega
          rw [h1]
        · show "Failed: " ++ String.take msg 100 = _
          rw [show ("Failed: " : String) = "Failed" ++ ": " from rfl]
          rw [string_append_assoc]
      · rw [if_neg hlast]
        obtain ⟨r, hr, t, ht⟩ := ih (attempt + 1) (by omega) (by omega)
          (fun i hi hlt => hfail i (by omega) hlt)
        refine ⟨r, ?_, t, ht⟩
        rw [hr]
        have h2 : (max_retries - ((attempt : Nat) + 1 : Nat)).toNat + 1 =
            (max_retries - (attempt : Int)).toNat := by
          push_cast
          omega
        rw [Prod.mk.injEq]
        exact ⟨rfl, h2⟩

lemma download_video_isSome (title now : String) (outs : Nat → AttemptOutcome)
    (max_retries : Int) (h : 1 ≤ max_retries) :
    ((download_video title now outs max_retries).1).isSome :=
  dvGo_isSome title now outs max_retries max_retries.toNat 0 (by omega) (by push_cast; omega)

lemma run_batch_ok (now : String) (outs : Nat → Nat → AttemptOutcome) :
    ∀ (videos : List Video) (i : Nat),
      ∃ results : List DownloadResult,
        run_batch now outs i videos = Except.ok results ∧
          results.length = videos.length := by
  intro videos
  induction videos with
  | nil => exact fun i => ⟨[], rfl, rfl⟩
  | cons v vs ih =>
    intro i
    obtain ⟨rs, hrs, hlen⟩ := ih (i + 1)
    have hsome := download_video_isSome v.title now (outs i) 2 (by norm_num)
    rw [Option.isSome_iff_exists] at hsome
    obtain ⟨r, hr⟩ := hsome
    refine ⟨r :: rs, ?_, by simp [hlen]⟩
    rw [run_batch, hr, hrs]
    rfl

/-! ## Claims C1, C2, C10 -/

/-- C2 counterexample.  The claim, read over `web_app.py`'s `download_video`
(one of its cited sources), is false at `retries = 3` with every attempt
raising `CalledProcessError`: only one subprocess attempt happens — the
handler dereferences `e.stderr`, which is `None` because the call does not
capture output, and the resulting `AttributeError` escapes — so neither
are exactly 3 attempts spawned nor is any failure result returned. -/
theorem web_download_video_first_failure_crashes :
    (web_download_video (fun _ => WebAttempt.callederr none) 3).2 = 1 ∧
      (1 : Nat) ≠ 3 ∧
      (web_download_video (fun _ => WebAttempt.callederr none) 3).1 =
        Except.error "AttributeError: NoneType object has no attribute strip" :=
  ⟨rfl, by decide, rfl⟩

/-- C2 (amended).  Job Runner retry bound: for `streamlit_app.py`'s
`download_video`, with `max_retries ≥ 1` and every attempt failing, the
loop performs exactly `max_retries` subprocess attempts and returns a
result whose status starts with `"Failed"`.  `web_app.py`'s variant makes
only one attempt when the first attempt fails with `CalledProcessError`:
its handler crashes on `e.stderr.strip()` since output is not captured. -/
theorem download_video_retry_bound (title now : String) (outs : Nat → AttemptOutcome)
    (max_retries : Int) (wouts : Nat → WebAttempt) (retries : Nat)
    (hmr : 1 ≤ max_retries)
    (hfail : ∀ i : Nat, (i : Int) < max_retries → attemptFails (outs i))
    (hretr : 1 ≤ retries) (hw : wouts 1 = WebAttempt.callederr none) :
    (∃ r : DownloadResult,
        download_video title now outs max_retries = (some r, max_retries.toNat) ∧
          ∃ t : String, r.status = "Failed" ++ t) ∧
      web_download_video wouts retries =
        (Except.error "AttributeError: NoneType object has no attribute strip", 1) := by
  constructor
  · obtain ⟨r, hr, t, ht⟩ := dvGo_all_fail title now outs max_retries max_retries.toNat 0
      (by push_cast; omega) (by push_cast; omega)
      (fun i _ hlt => hfail i hlt)
    refine ⟨r, ?_, t, ht⟩
    rw [download_video, hr]
    have : ((max_retries - ((0 : Nat) : Int))).toNat = max_retries.toNat := by push_cast; omega
    rw [this]
  · obtain ⟨n, rfl⟩ : ∃ n, retries = n + 1 := ⟨retries - 1, by omega⟩
    rw [web_download_video, List.range'_succ, webLoop, hw]

/-- Concrete instantiation of `download_video_retry_bound`. -/
theorem download_video_retry_bound_witness :
    (∃ r : DownloadResult,
        download_video "T" "ts" (fun _ => AttemptOutcome.exitCode 1) 2 =
          (some r, (2 : Int).toNat) ∧ ∃ t : String, r.status = "Failed" ++ t) ∧
      web_download_video (fun _ => WebAttempt.callederr none) 4 =
        (Except.error "AttributeError: NoneType object has no attribute strip", 1) :=
  download_video_retry_bound "T" "ts" (fun _ => AttemptOutcome.exitCode 1) 2
    (fun _ => WebAttempt.callederr none) 4 (by norm_num)
    (fun i _ => by show (1 : Int) ≠ 0; norm_num) (by norm_num) rfl

/-- C1.  Batch completeness: for every non-empty list of selected videos
(and likewise for the single-video handler's URL list), the sequential
download loop succeeds and collects exactly one `DownloadResult` per
submitted video, whatever the attempt outcomes of the individual jobs. -/
theorem run_batch_completeness (now : String) (outs : Nat → Nat → AttemptOutcome)
    (videos : List Video) (fetchTitle : String → String) (urls : List String)
    (hne : videos ≠ []) (hne2 : urls ≠ []) :
    (∃ results : List DownloadResult,
        run_batch now outs 0 videos = Except.ok results ∧
          results.length = videos.length) ∧
      (∃ results : List DownloadResult,
        run_single_batch now outs fetchTitle urls = Except.ok results ∧
          results.length = urls.length) := by
  constructor
  · exact run_batch_ok now outs videos 0
  · obtain ⟨rs, hrs, hlen⟩ :=
      run_batch_ok now outs (urls.map (fun u => { id := u, title := fetchTitle u })) 0
    exact ⟨rs, hrs, by simpa using hlen⟩

/-- Concrete instantiation of `run_batch_completeness`. -/
theorem run_batch_completeness_witness :
    ([⟨"v1", "T1"⟩, ⟨"v2", "T2"⟩] : List Video) ≠ [] ∧
      (∃ results : List DownloadResult,
        run_batch "ts" (fun _ _ => AttemptOutcome.exitCode 1) 0
            [⟨"v1", "T1"⟩, ⟨"v2", "T2"⟩] = Except.ok results ∧
          results.length = 2) ∧
      ∃ results : List DownloadResult,
        run_single_batch "ts" (fun _ _ => AttemptOutcome.exitCode 1)
            (fun u => u) ["u1"] = Except.ok results ∧
          results.length = 1 :=
  ⟨by decide,
   (run_batch_completeness "ts" (fun _ _ => AttemptOutcome.exitCode 1)
      [⟨"v1", "T1"⟩, ⟨"v2", "T2"⟩] (fun u => u) ["u1"] (by decide) (by decide)).1,
   (run_batch_completeness "ts" (fun _ _ => AttemptOutcome.exitCode 1)
      [⟨"v1", "T1"⟩, ⟨"v2", "T2"⟩] (fun u => u) ["u1"] (by decide) (by decide)).2⟩

/-- C10.  `download_video` (streamlit variant) returns a result record for
every call with `max_retries ≥ 1`, but with `max_retries ≤ 0` (zero or
negative) the `while attempt < max_retries` loop body never runs and the
function falls through, returning Python `None` after zero attempts. -/
theorem download_video_totality_boundary :
    (∀ (title now : String) (outs : Nat → AttemptOutcome) (m : Int), m ≤ 0 →
        download_video title now outs m = (none, 0)) ∧
      ∀ (title now : String) (outs : Nat → AttemptOutcome) (m : Int), 1 ≤ m →
        ((download_video title now outs m).1).isSome := by
  constructor
  · intro title now outs m hm
    exact dvGo_stop title now outs m 0 (by push_cast; omega)
  · intro title now outs m hm
    exact download_video_isSome title now outs m hm

/-- Concrete instantiation of `download_video_totality_boundary`. -/
theorem download_video_totality_boundary_witness :
    download_video "T" "ts" (fun _ => AttemptOutcome.exitCode 0) 0 = (none, 0) ∧
      ((download_video "T" "ts" (fun _ => AttemptOutcome.exitCode 0) 2).1).isSome :=
  ⟨download_video_totality_boundary.1 "T" "ts" (fun _ => AttemptOutcome.exitCode 0) 0
      (by norm_num),
   download_video_totality_boundary.2 "T" "ts" (fun _ => AttemptOutcome.exitCode 0) 2
      (by norm_num)⟩

lemma playlistVideos_none_of_missing_id :
    ∀ (l : List RawEntry) (i : Nat), (∃ e ∈ l, e.id = none) → playlistVideos l i = none := by
  intro l
  induction l with
  | nil => intro i h; obtain ⟨e, he, _⟩ := h; exact absurd he (List.not_mem_nil e)
  | cons e rest ih =>
    intro i h
    rw [playlistVideos]
    cases hid : e.id with
    | none => rfl
    | some vid =>
      obtain ⟨e2, he2, hid2⟩ := h
      rcases List.mem_cons.1 he2 with rfl | hmem
      · rw [hid] at hid2; exact absurd hid2 (by simp)
      · rw [ih (i + 1) ⟨e2, hmem, hid2⟩]
        rfl

lemma streamlit_process_cons (url : String) (res : ToolResult)
    (rest : List (String × ToolResult)) :
    streamlit_process_playlists ((url, res) :: rest) =
      match get_playlist_info res with
      | some info => (url, info) :: streamlit_process_playlists rest
      | none => streamlit_process_playlists rest := rfl

lemma streamlit_process_skip (pre post : List (String × ToolResult)) (url : String)
    (res : ToolResult) (h : get_playlist_info res = none) :
    streamlit_process_playlists (pre ++ (url, res) :: post) =
      streamlit_process_playlists (pre ++ post) := by
  induction pre with
  | nil =>
    show streamlit_process_playlists ((url, res) :: post) = _
    rw [streamlit_process_cons, h]
    rfl
  | cons p rest ih =>
    obtain ⟨u, r⟩ := p
    rw [List.cons_append, streamlit_process_cons, List.cons_append, streamlit_process_cons, ih]

lemma web_process_cons (url : String) (res : ToolResult)
    (rest : List (String × ToolResult)) :
    web_process_playlists ((url, res) :: rest) =
      match web_get_playlist_info res with
      | Except.error msg => Except.error msg
      | Except.ok none => web_process_playlists rest
      | Except.ok (some info) => (web_process_playlists rest).map (fun m => (url, info) :: m) :=
  rfl

/-- C6 counterexample.  The claim, read over `web_app.py`'s
`get_playlist_info` (one of its cited sources), is false when the tool
emits malformed JSON for the middle of three URLs: `json.loads` raises an
uncaught `JSONDecodeError`, so no error-and-continue happens — the whole
processing loop aborts, the remaining URL is never processed, and no
mapping (not even the first URL's entry) is produced. -/
theorem web_process_playlists_counterexample :
    web_process_playlists
        [("u1", ToolResult.success
           (some { title := some "P1",
                   entries := some [{ id := some "id1", title := some "T1" }] })),
         ("u2", ToolResult.success none),
         ("u3", ToolResult.success
           (some { title := some "P3",
                   entries := some [{ id := some "id3", title := some "T3" }] }))] =
      Except.error "json.decoder.JSONDecodeError" := rfl

/-- C6 (amended).  All-or-nothing playlist resolution holds as stated for
the streamlit resolver: a non-zero exit, a spawn exception, malformed
JSON, or an entry with a missing `id` each yield `None` (an error is
reported, no partial descriptor), and the batch loop skips that URL and
continues, leaving the results of the other URLs unchanged.  For the
web_app resolver this holds only for the non-zero-exit case; malformed
JSON and a missing `id` raise uncaught exceptions that abort the whole
batch. -/
theorem playlist_resolution_all_or_nothing
    (c : Int) (stderr msg : String) (raw : RawPlaylist)
    (pre post : List (String × ToolResult)) (url : String) (res : ToolResult)
    (rest : List (String × ToolResult))
    (hmiss : ∃ e ∈ raw.entries.getD [], e.id = none)
    (hres : get_playlist_info res = none) :
    get_playlist_info (ToolResult.exitNonzero c stderr) = none ∧
      get_playlist_info (ToolResult.spawnExc msg) = none ∧
      get_playlist_info (ToolResult.success none) = none ∧
      get_playlist_info (ToolResult.success (some raw)) = none ∧
      streamlit_process_playlists (pre ++ (url, res) :: post) =
        streamlit_process_playlists (pre ++ post) ∧
      web_get_playlist_info (ToolResult.exitNonzero c stderr) = Except.ok none ∧
      web_process_playlists ((url, ToolResult.exitNonzero c stderr) :: rest) =
        web_process_playlists rest ∧
      web_get_playlist_info (ToolResult.success none) =
        Except.error "json.decoder.JSONDecodeError" ∧
      web_process_playlists ((url, ToolResult.success none) :: rest) =
        Except.error "json.decoder.JSONDecodeError" := by
  refine ⟨rfl, rfl, rfl, ?_, streamlit_process_skip pre post url res hres, rfl, rfl, rfl, rfl⟩
  show (match playlistVideos (raw.entries.getD []) 0 with
    | none => (none : Option Playlist)
    | some vids =>
      some { title := sanitize_filename (raw.title.getD "Untitled Playlist"),
             videos := vids }) = none
  rw [playlistVideos_none_of_missing_id (raw.entries.getD []) 0 hmiss]

/-- Concrete instantiation of `playlist_resolution_all_or_nothing`. -/
theorem playlist_resolution_all_or_nothing_witness :
    (∃ e ∈ ({ title := some "P", entries := some [{ id := none, title := some "T" }] } :
        RawPlaylist).entries.getD [], e.id = none) ∧
      get_playlist_info (ToolResult.success
        (some { title := some "P", entries := some [{ id := none, title := some "T" }] })) =
        none ∧
      streamlit_process_playlists
          ([("a", ToolResult.success (some { title := some "PA", entries := some [] }))] ++
            ("u", ToolResult.exitNonzero 1 "boom") ::
              [("b", ToolResult.success (some { title := some "PB", entries := some [] }))]) =
        streamlit_process_playlists
          ([("a", ToolResult.success (some { title := some "PA", entries := some [] }))] ++
            [("b", ToolResult.success (some { title := some "PB", entries := some [] }))]) := by
  refine ⟨by decide, ?_, ?_⟩
  · exact (playlist_resolution_all_or_nothing 1 "boom" "m"
      { title := some "P", entries := some [{ id := none, title := some "T" }] }
      [] [] "u" (ToolResult.exitNonzero 1 "boom") []
      ⟨{ id := none, title := some "T" }, by decide, rfl⟩ rfl).2.2.2.1
  · exact (playlist_resolution_all_or_nothing 1 "boom" "m"
      { title := some "P", entries := some [{ id := none, title := some "T" }] }
      [("a", ToolResult.success (some { title := some "PA", entries := some [] }))]
      [("b", ToolResult.success (some { title := some "PB", entries := some [] }))]
      "u" (ToolResult.exitNonzero 1 "boom") []
      ⟨{ id := none, title := some "T" }, by decide, rfl⟩ rfl).2.2.2.2.1

/-- C4 counterexample.  An existing but unparseable config or history
document does not fall back to defaults or empty history: the
`JSONDecodeError` propagates out of `load_config` / `log_history`, so the
claim's conclusions fail on the corrupt state. -/
theorem corrupt_store_counterexample :
    load_config "/cwd" FileState.corrupt = Except.error "json.decoder.JSONDecodeError" ∧
      load_config "/cwd" FileState.corrupt ≠ Except.ok (DEFAULT_CONFIG "/cwd") ∧
      log_history FileState.corrupt [{ title := "T", status := "Downloaded", timestamp := "ts" }] =
        Except.error "json.decoder.JSONDecodeError" ∧
      log_history FileState.corrupt [{ title := "T", status := "Downloaded", timestamp := "ts" }] ≠
        Except.ok [{ title := "T", status := "Downloaded", timestamp := "ts" }] :=
  ⟨rfl, fun h => Except.noConfusion h, rfl, fun h => Except.noConfusion h⟩

/-- C4 (amended).  Corruption tolerance holds only for the absent case:
a missing config file yields the hardcoded defaults, a parsed one is
merged over them, and a missing history file is treated as empty (the new
results are still recorded, and a parsed history is appended to).  An
existing-but-unparseable config, history, or playlist document instead
raises an uncaught `JSONDecodeError`: `load_config` propagates it rather
than falling back to defaults, and `log_history` records nothing. -/
theorem corrupt_store_behaviour (cwd : String) (user : List (String × JVal))
    (history entries : List DownloadResult) :
    load_config cwd FileState.absent = Except.ok (DEFAULT_CONFIG cwd) ∧
      load_config cwd (FileState.parsed user) =
        Except.ok (dictUpdate (DEFAULT_CONFIG cwd) user) ∧
      load_config cwd FileState.corrupt = Except.error "json.decoder.JSONDecodeError" ∧
      log_history FileState.absent entries = Except.ok entries ∧
      log_history (FileState.parsed history) entries = Except.ok (history ++ entries) ∧
      log_history FileState.corrupt entries = Except.error "json.decoder.JSONDecodeError" ∧
      read_playlist_cache (FileState.corrupt) = Except.error "json.decoder.JSONDecodeError" :=
  ⟨rfl, rfl, rfl, rfl, rfl, rfl, rfl⟩

/-- C7 counterexample.  `web_app.py` has no save control at all: the
sidebar persists the configuration on every script run (its own comment
reads "Save config on any change"), so the config store changes without
any explicit save action, falsifying the claim for that cited source. -/
theorem web_render_writes_without_save :
    (web_render [] { download_path := "/d", mode := "Download All", quality := "best",
                     thumbnail := true, metadata := true, sponsorblock := true,
                     subtitles := ["all"] }
        { configFile := FileState.absent, playlistFile := FileState.absent,
          historyFile := FileState.absent }).configFile ≠ FileState.absent := by
  intro h
  exact FileState.noConfusion h

/-- C7 (amended).  Config-store frame condition for `streamlit_app.py`:
one script run writes the persisted config exactly when the Save Settings
button was pressed — with it, the store becomes the current in-memory
configuration; without it, every other operation of the run (widget
mutation, playlist resolution, downloads, history logging) leaves the
config store unchanged.  `web_app.py` instead writes the merged config on
every run, independent of any save action. -/
theorem config_store_frame (ui : UIActions) (uiConfig : List (String × JVal))
    (playlistInputs : List (String × ToolResult)) (now : String)
    (outs : Nat → Nat → AttemptOutcome) (videos : List Video) (s : Stores)
    (loadedCfg : List (String × JVal)) (w : WebWidgets) :
    (ui.saveSettings = false →
      (streamlit_render ui uiConfig playlistInputs now outs videos s).configFile =
        s.configFile) ∧
      (ui.saveSettings = true →
        (streamlit_render ui uiConfig playlistInputs now outs videos s).configFile =
          FileState.parsed uiConfig) ∧
      (web_render loadedCfg w s).configFile =
        FileState.parsed (dictUpdate loadedCfg (webWidgetPairs w)) := by
  have hcfg : ∀ b : Bool,
      (streamlit_render { ui with saveSettings := b } uiConfig playlistInputs now outs
          videos s).configFile =
        (if b then FileState.parsed uiConfig else s.configFile) := by
    intro b
    unfold streamlit_render
    cases b <;>
      simp only [Bool.false_eq_true, if_false, if_true] <;>
      (repeat' split) <;> rfl
  refine ⟨?_, ?_, rfl⟩
  · intro h
    have := hcfg false
    rw [show { ui with saveSettings := false } = ui from by
      cases ui; simp_all] at this
    simpa using this
  · intro h
    have := hcfg true
    rw [show { ui with saveSettings := true } = ui from by
      cases ui; simp_all] at this
    simpa using this

/-- Concrete instantiation of `config_store_frame`. -/
theorem config_store_frame_witness :
    (streamlit_render
        { cleanTemp := false, updateYtDlp := false, saveSettings := false,
          processPlaylists := false, downloadClicked := false } [] [] "ts"
        (fun _ _ => AttemptOutcome.exitCode 0) []
        { configFile := FileState.absent, playlistFile := FileState.absent,
          historyFile := FileState.absent }).configFile = FileState.absent ∧
      (streamlit_render
          { cleanTemp := false, updateYtDlp := false, saveSettings := true,
            processPlaylists := false, downloadClicked := false } [] [] "ts"
          (fun _ _ => AttemptOutcome.exitCode 0) []
          { configFile := FileState.absent, playlistFile := FileState.absent,
            historyFile := FileState.absent }).configFile = FileState.parsed [] :=
  ⟨(config_store_frame
      { cleanTemp := false, updateYtDlp := false, saveSettings := false,
        processPlaylists := false, downloadClicked := false } [] [] "ts"
      (fun _ _ => AttemptOutcome.exitCode 0) []
      { configFile := FileState.absent, playlistFile := FileState.absent,
        historyFile := FileState.absent } []
      { download_path := "", mode := "", quality := "", thumbnail := false,
        metadata := false, sponsorblock := false, subtitles := [] }).1 rfl,
   (config_store_frame
      { cleanTemp := false, updateYtDlp := false, saveSettings := true,
        processPlaylists := false, downloadClicked := false } [] [] "ts"
      (fun _ _ => AttemptOutcome.exitCode 0) []
      { configFile := FileState.absent, playlistFile := FileState.absent,
        historyFile := FileState.absent } []
      { download_path := "", mode := "", quality := "", thumbnail := false,
        metadata := false, sponsorblock := false, subtitles := [] }).2.1 rfl⟩

/-- C5.  Unique Path Resolver: if `base.ext` does not exist in the
directory, the resolver returns `base.ext`; and if the directory contains
exactly the probe names `base.ext, base_1.ext, …, base_(N-1).ext`, it
returns `base_N.ext` — the first name in the probe order that does not
exist.  (`candName base ext N` spells `base_N.ext` for `N ≥ 1`.) -/
theorem get_unique_filename_spec (files : List String) (base ext : String) (N : Nat) :
    ((base ++ "." ++ ext) ∉ files →
        get_unique_filename files base ext = base ++ "." ++ ext) ∧
      (files = (List.range N).map (candName base ext) →
        get_unique_filename files base ext = candName base ext N) ∧
      (N ≠ 0 → candName base ext N = base ++ "_" ++ Nat.repr N ++ "." ++ ext) := by
  refine ⟨?_, guf_of_exact_range files base ext N, ?_⟩
  · intro h
    have h0 : candName base ext 0 = base ++ "." ++ ext := by
      unfold candName
      rw [if_pos rfl]
    exact (guf_of_base_free files base ext (by rwa [h0])).trans h0
  · intro hN
    unfold candName
    rw [if_neg hN]

/-- Concrete instantiation of `get_unique_filename_spec`. -/
theorem get_unique_filename_spec_witness :
    ("b.mp3" : String) ∉ (["a.mp3"] : List String) ∧
      get_unique_filename ["a.mp3"] "b" "mp3" = "b" ++ "." ++ "mp3" ∧
      (["a.mp3", "a_1.mp3"] : List String) = (List.range 2).map (candName "a" "mp3") ∧
      get_unique_filename ["a.mp3", "a_1.mp3"] "a" "mp3" = candName "a" "mp3" 2 ∧
      candName "a" "mp3" 2 = "a" ++ "_" ++ Nat.repr 2 ++ "." ++ "mp3" :=
  ⟨by decide,
   (get_unique_filename_spec ["a.mp3"] "b" "mp3" 2).1 (by decide),
   by decide,
   (get_unique_filename_spec ["a.mp3", "a_1.mp3"] "a" "mp3" 2).2.1 (by decide),
   (get_unique_filename_spec ["a.mp3", "a_1.mp3"] "a" "mp3" 2).2.2 (by decide)⟩

/-- C8 counterexample.  The claim, read over `web_app.py`'s builder (one of
its cited sources), is false for the selection `["none"]`: that builder
checks only non-emptiness, so the built list still requests subtitle
download and embedding, with `--sub-lang none`. -/
theorem web_subtitles_none_counterexample :
    "--write-subs" ∈
        web_build_cmd
          { quality := some "best", thumbnail := true, metadata := true,
            subtitles := some ["none"], sponsorblock := true } "vid" "out" ∧
      ["--sub-lang", "none"] <:+:
        web_build_cmd
          { quality := some "best", thumbnail := true, metadata := true,
            subtitles := some ["none"], sponsorblock := true } "vid" "out" := by
  decide

/-- C8 (amended).  Subtitle arguments: for `streamlit_app.py`'s builder the
claim holds as stated — when the selection is non-empty and does not
contain `"none"`, the built list contains, in order, `--write-subs`,
`--sub-lang` with the comma-joined selection, `--sub-format best` and
`--embed-subs`; when the selection is empty or contains `"none"`, no
subtitle arguments are added and the command is just the other chunks.
`web_app.py`'s builder tests only non-emptiness: an empty or absent
selection adds nothing, but any non-empty selection (including
`["none"]`) adds the subtitle arguments. -/
theorem subtitle_args_spec (cfg : Config) (files : List String)
    (video_id output_dir : String) (title format_id : Option String)
    (wcfg : WebConfig) (wvid wdir : String) (l : List String) :
    (cfg.subtitles ≠ [] ∧ "none" ∉ cfg.subtitles →
        subtitleArgs cfg =
          ["--write-subs", "--sub-lang", String.intercalate "," cfg.subtitles,
           "--sub-format", "best", "--embed-subs"] ∧
          ["--write-subs", "--sub-lang", String.intercalate "," cfg.subtitles,
           "--sub-format", "best", "--embed-subs"] <:+:
            build_yt_dlp_cmd cfg files video_id output_dir title format_id) ∧
      (cfg.subtitles = [] ∨ "none" ∈ cfg.subtitles →
        subtitleArgs cfg = [] ∧
          build_yt_dlp_cmd cfg files video_id output_dir title format_id =
            baseArgs output_dir (outTemplate cfg files title) ++
              formatThumbArgs cfg format_id ++ metadataArgs cfg ++
              sponsorblockArgs cfg ++ proxyArgs cfg ++ targetArgs video_id) ∧
      (wcfg.subtitles = none ∨ wcfg.subtitles = some [] → webSubtitleArgs wcfg = []) ∧
      (wcfg.subtitles = some l → l ≠ [] →
        ["--write-subs", "--embed-subs", "--sub-lang", String.intercalate "," l,
         "--sub-format", "best"] <:+: web_build_cmd wcfg wvid wdir) := by
  refine ⟨?_, ?_, ?_, ?_⟩
  · intro h
    have hsub : subtitleArgs cfg =
        ["--write-subs", "--sub-lang", String.intercalate "," cfg.subtitles,
         "--sub-format", "best", "--embed-subs"] := by
      unfold subtitleArgs
      rw [if_pos h]
    refine ⟨hsub, ?_⟩
    refine ⟨baseArgs output_dir (outTemplate cfg files title) ++
        formatThumbArgs cfg format_id ++ metadataArgs cfg,
      sponsorblockArgs cfg ++ proxyArgs cfg ++ targetArgs video_id, ?_⟩
    rw [← hsub]
    unfold build_yt_dlp_cmd
    simp [List.append_assoc]
  · intro h
    have hsub : subtitleArgs cfg = [] := by
      unfold subtitleArgs
      rw [if_neg]
      intro hc
      rcases h with h | h
      · exact hc.1 h
      · exact hc.2 h
    refine ⟨hsub, ?_⟩
    unfold build_yt_dlp_cmd
    rw [hsub]
    simp
  · intro h
    unfold webSubtitleArgs
    rcases h with h | h <;> rw [h] <;> simp
  · intro hl hne
    have hred : webSubtitleArgs wcfg =
        if l ≠ [] ∧ 0 < l.length then
          ["--write-subs", "--embed-subs", "--sub-lang", String.intercalate "," l,
           "--sub-format", "best"]
        else [] := by
      unfold webSubtitleArgs
      rw [hl]
    have hsub : webSubtitleArgs wcfg =
        ["--write-subs", "--embed-subs", "--sub-lang", String.intercalate "," l,
         "--sub-format", "best"] := by
      rw [hred, if_pos]
      exact ⟨hne, by cases l with
        | nil => exact absurd rfl hne
        | cons a t => simp⟩
    refine ⟨["yt-dlp", "--no-cache-dir", "-o", wdir ++ "/" ++ "%(title)s.%(ext)s",
        "https://www.youtube.com/watch?v=" ++ wvid, "--cookies", "cookies.txt"] ++
        (match wcfg.quality with
         | none => []
         | some q => if q ≠ "" then ["-f", q] else []) ++
        (if wcfg.thumbnail then ["--write-thumbnail", "--embed-thumbnail"] else []) ++
        (if wcfg.metadata then ["--write-info-json"] else []),
      (if wcfg.sponsorblock then ["--sponsorblock-mark", "all"] else []), ?_⟩
    rw [← hsub]
    unfold web_build_cmd
    simp [List.append_assoc]

/-- Concrete instantiation of `subtitle_args_spec`. -/
theorem subtitle_args_spec_witness :
    (( { quality := "best", thumbnails := "embed", metadata := "embed",
         subtitles := ["en", "es"], sponsorblock := "mark", audio_only := false,
         max_concurrent := 2, output_path := "/o", proxy := "" } : Config).subtitles ≠ [] ∧
        "none" ∉ (["en", "es"] : List String)) ∧
      ["--write-subs", "--sub-lang", String.intercalate "," ["en", "es"],
       "--sub-format", "best", "--embed-subs"] <:+:
        build_yt_dlp_cmd
          { quality := "best", thumbnails := "embed", metadata := "embed",
            subtitles := ["en", "es"], sponsorblock := "mark", audio_only := false,
            max_concurrent := 2, output_path := "/o", proxy := "" }
          [] "abc123" "/o" none none :=
  ⟨⟨by decide, by decide⟩,
   ((subtitle_args_spec
      { quality := "best", thumbnails := "embed", metadata := "embed",
        subtitles := ["en", "es"], sponsorblock := "mark", audio_only := false,
        max_concurrent := 2, output_path := "/o", proxy := "" }
      [] "abc123" "/o" none none
      { quality := none, thumbnail := false, metadata := false, subtitles := none,
        sponsorblock := false } "v" "d" []).1 ⟨by decide, by decide⟩).2⟩

/-- The `-o` value always sits at index 3 of the built command. -/
lemma build_cmd_get3 (cfg : Config) (files : List String) (video_id output_dir : String)
    (title format_id : Option String) :
    (build_yt_dlp_cmd cfg files video_id output_dir title format_id).get? 3 =
      some (output_dir ++ "/" ++ outTemplate cfg files title) := rfl

/-- In video mode the probed extension is the literal `%(ext)s`, so every
candidate the resolver can return contains `%(`. -/
lemma strContains_guf_placeholder (files : List String) (base : String) :
    strContains (get_unique_filename files base "%(ext)s") "%(" = true := by
  obtain ⟨k, hk⟩ := guf_is_candName files base "%(ext)s"
  obtain ⟨p, hp⟩ := candName_ends_with_ext base "%(ext)s" k
  rw [hk, hp]
  simp only [strContains, decide_eq_true_eq]
  refine ⟨(p ++ ".").data, ("ext)s" : String).data, ?_⟩
  simp [String.data_append, List.append_assoc,
    show ("%(ext)s" : String).data = '%' :: '(' :: ("ext)s" : String).data from rfl]

/-- With a known non-empty title and video mode, the builder discards the
resolver's answer and falls back to the fixed `title.%(ext)s` template. -/
lemma outTemplate_video_mode (cfg : Config) (files : List String) (t : String)
    (ha : cfg.audio_only = false) (ht : ¬ t = "") :
    outTemplate cfg files (some t) = sanitize_filename t ++ ".%(ext)s" := by
  show (if t = "" then "%(title)s.%(ext)s"
    else
      let base_name := sanitize_filename t
      let ext := if cfg.audio_only then "mp3" else "%(ext)s"
      let unique_name := get_unique_filename files base_name ext
      if strContains unique_name "%(" then base_name ++ ".%(ext)s" else unique_name) =
    sanitize_filename t ++ ".%(ext)s"
  rw [if_neg ht]
  show (if strContains
      (get_unique_filename files (sanitize_filename t)
        (if cfg.audio_only then "mp3" else "%(ext)s")) "%(" then
      sanitize_filename t ++ ".%(ext)s"
    else
      get_unique_filename files (sanitize_filename t)
        (if cfg.audio_only then "mp3" else "%(ext)s")) = sanitize_filename t ++ ".%(ext)s"
  rw [ha]
  simp only [Bool.false_eq_true, if_false]
  rw [if_pos (strContains_guf_placeholder files (sanitize_filename t))]

/-- C3 counterexample.  Two videos titled "Intro" in video mode: even with
`Intro.mp4` already present from the first download, the second command's
output template is still `Intro.%(ext)s` — the probed unique name contains
`%(`, so `build_yt_dlp_cmd` discards it (line 119-121) and no element of
the command mentions `Intro_1`, contradicting the claim that the unique
filename is used in video mode. -/
theorem duplicate_title_video_mode_counterexample :
    (build_yt_dlp_cmd introVideoConfig ["Intro.mp4"] "v2" "out" (some "Intro") none).get? 3 =
        some "out/Intro.%(ext)s" ∧
      ∀ s ∈ build_yt_dlp_cmd introVideoConfig ["Intro.mp4"] "v2" "out" (some "Intro") none,
        ¬ (("Intro_1" : String).data <:+: s.data) := by
  decide

/-- C3 (amended).  Sequential duplicate-title uniquification holds in
audio-only mode: the first "Intro" command uses output name `Intro.mp3`
and, once `Intro.mp3` exists in the directory, the second uses
`Intro_1.mp3`.  In video mode the target extension is the tool placeholder
`%(ext)s`; the probed name therefore contains `%(` and the builder falls
back to the fixed template, so both commands use `Intro.%(ext)s` whatever
files exist — the resolver's unique name is used only in audio-only mode. -/
theorem duplicate_title_uniquification (dir : String) (files : List String) :
    (build_yt_dlp_cmd introAudioConfig [] "v1" dir (some "Intro") none).get? 3 =
        some (dir ++ "/" ++ "Intro.mp3") ∧
      (build_yt_dlp_cmd introAudioConfig ["Intro.mp3"] "v2" dir (some "Intro") none).get? 3 =
        some (dir ++ "/" ++ "Intro_1.mp3") ∧
      (build_yt_dlp_cmd introVideoConfig files "v1" dir (some "Intro") none).get? 3 =
        some (dir ++ "/" ++ "Intro.%(ext)s") := by
  refine ⟨?_, ?_, ?_⟩
  · rw [build_cmd_get3,
      show outTemplate introAudioConfig [] (some "Intro") = "Intro.mp3" from by decide]
  · rw [build_cmd_get3,
      show outTemplate introAudioConfig ["Intro.mp3"] (some "Intro") = "Intro_1.mp3"
        from by decide]
  · rw [build_cmd_get3, outTemplate_video_mode introVideoConfig files "Intro" rfl (by decide),
      show sanitize_filename "Intro" ++ ".%(ext)s" = "Intro.%(ext)s" from by decide]
